import Mathlib

/-!
Verification of the Health-Ease appointment scheduling engine.

Shallow embedding of
`a2a_medical_coordinator/host_agent_adk/host/medical_scheduling_tools.py`
(calendar initialization, availability listing, booking),
`a2a_medical_coordinator/neurologist_agent_adk/agent.py`
(range availability checker with past-date validation), and
`a2a_medical_coordinator/pulmonologist_agent_crewai/agent.py`
(range availability checker without past-date validation).

Modelling conventions:
* Python `datetime.date` values are represented by their day ordinal
  (days since 0000-03-01, proleptic Gregorian); `datetime.strptime`
  with `"%Y-%m-%d"` / `"%H:%M"` is modelled by explicit field parsers that
  follow CPython's `_strptime` regexes (`%Y` exactly four digits, `%m`/`%d`/
  `%H`/`%M` one or two digits with the usual range checks, then calendar
  validation); times are minutes after midnight.  The whitespace laxity of
  `strptime` patterns is not modelled: the claims never exercise it.
* Python dicts are insertion-ordered association lists; `d[k] = v` keeps the
  position of an existing key and appends a missing one, exactly like CPython.
* `random.sample` results are an arbitrary parameter `sample : Nat → List String`
  (one drawn list per day offset); `uuid.uuid4()` is an arbitrary string
  parameter.  `date.today()` is an arbitrary ordinal parameter `today`.
* Python `sorted` on strings is insertion sort by code-point lexicographic
  order (`charsLe`), because Lean's built-in `String` order does not reduce
  in the kernel.
-/

namespace HealthEase

/-! ### Character and string helpers -/

/-- Is `c` an ASCII digit?  (Used to model the `\d` classes of `_strptime`.) -/
def isDigitCh (c : Char) : Bool := 48 ≤ c.toNat && c.toNat ≤ 57

/-- Numeric value of a digit list, most significant first. -/
def digitsVal (l : List Char) : Nat := l.foldl (fun a c => 10 * a + (c.toNat - 48)) 0

/-- Parse a field of exactly `n` digits (CPython `%Y` is `\d\d\d\d`). -/
def parseExact (n : Nat) (l : List Char) : Option Nat :=
  if l.length = n && l.all isDigitCh then some (digitsVal l) else none

/-- Parse a field of one or two digits (CPython `%m`, `%d`, `%H`, `%M`). -/
def parseUpTo2 (l : List Char) : Option Nat :=
  if decide (1 ≤ l.length) && decide (l.length ≤ 2) && l.all isDigitCh then
    some (digitsVal l)
  else none

/-- Split a character list at every occurrence of a separator character,
keeping empty pieces, like Python `str.split(sep)` for a one-character `sep`. -/
def splitChAux (c : Char) : List Char → List Char → List (List Char)
  | [], acc => [acc.reverse]
  | x :: xs, acc =>
    if x = c then acc.reverse :: splitChAux c xs [] else splitChAux c xs (x :: acc)

def splitCh (c : Char) (l : List Char) : List (List Char) := splitChAux c l []

/-- Split at every occurrence of the two-character separator `"to"`,
like Python `str.split("to")` as used by the pulmonologist tool. -/
def splitOnTo : List Char → List Char → List (List Char)
  | 't' :: 'o' :: rest, acc => acc.reverse :: splitOnTo rest []
  | x :: rest, acc => splitOnTo rest (x :: acc)
  | [], acc => [acc.reverse]

/-- Python `str.strip()` on a character list. -/
def pyStrip (l : List Char) : List Char :=
  ((l.dropWhile Char.isWhitespace).reverse.dropWhile Char.isWhitespace).reverse

/-- Truthiness test `not s or not s.strip()`: the string is empty or
consists only of whitespace. -/
def nameMissing (s : String) : Bool := s.data.all Char.isWhitespace

/-- Python `s[:8]` on a string. -/
def pyTake8 (s : String) : String := String.mk (s.data.take 8)

/-- Zero-padded two-digit rendering, Python `f"{n:02d}"` for `n < 100`. -/
def pad2 (n : Nat) : String := if n < 10 then "0" ++ Nat.repr n else Nat.repr n

/-- Zero-padded four-digit rendering of a year, `strftime "%Y"` as produced
for the years the schedule contains. -/
def pad4 (n : Nat) : String :=
  String.mk (List.replicate (4 - (Nat.repr n).length) '0') ++ Nat.repr n

/-- Code-point lexicographic `≤` on character lists (Python string order). -/
def charsLe : List Char → List Char → Bool
  | [], _ => true
  | _ :: _, [] => false
  | a :: as, b :: bs =>
    if a.toNat < b.toNat then true
    else if b.toNat < a.toNat then false
    else charsLe as bs

def strLe (a b : String) : Bool := charsLe a.data b.data

/-- Stable insertion into a `strLe`-sorted list. -/
def insertStr (x : String) : List String → List String
  | [] => [x]
  | y :: ys => if strLe x y then x :: y :: ys else y :: insertStr x ys

/-- Python `sorted` on a list of strings. -/
def sortStrs (l : List String) : List String := l.foldr insertStr []

/-! ### Dates (proleptic Gregorian, day ordinals) -/

def isLeap (y : Nat) : Bool := (y % 4 == 0 && y % 100 != 0) || y % 400 == 0

def daysInMonth (y m : Nat) : Nat :=
  if m = 2 then (if isLeap y then 29 else 28)
  else if m = 4 ∨ m = 6 ∨ m = 9 ∨ m = 11 then 30
  else 31

/-- Day ordinal of a calendar date (days since 0000-03-01). -/
def ordOfYmd (y m d : Nat) : Nat :=
  let y' := if m ≤ 2 then y - 1 else y
  let mp := (m + 9) % 12
  let era := y' / 400
  let yoe := y' % 400
  let doy := (153 * mp + 2) / 5 + (d - 1)
  let doe := yoe * 365 + yoe / 4 - yoe / 100 + doy
  era * 146097 + doe

/-- Calendar date of a day ordinal. -/
def ymdOfOrd (n : Nat) : Nat × Nat × Nat :=
  let era := n / 146097
  let doe := n % 146097
  let yoe := (doe - doe / 1460 + doe / 36524 - doe / 146096) / 365
  let y' := yoe + era * 400
  let doy := doe - (365 * yoe + yoe / 4 - yoe / 100)
  let mp := (5 * doy + 2) / 153
  let d := doy - (153 * mp + 2) / 5 + 1
  let m := if mp < 10 then mp + 3 else mp - 9
  (if m ≤ 2 then y' + 1 else y', m, d)

/-- `date.strftime("%Y-%m-%d")`. -/
def formatDate (n : Nat) : String :=
  let t := ymdOfOrd n
  pad4 t.1 ++ "-" ++ pad2 t.2.1 ++ "-" ++ pad2 t.2.2

/-- `datetime.strptime(s, "%Y-%m-%d")`, returning the day ordinal.
Fails exactly when the text is not `YYYY-M?M-D?D` or the field values do not
form a valid calendar date with `1 ≤ year` (Python `date` rejects year 0). -/
def parseDate (s : String) : Option Nat :=
  match splitCh '-' s.data with
  | [ys, ms, ds] =>
    match parseExact 4 ys, parseUpTo2 ms, parseUpTo2 ds with
    | some y, some m, some d =>
      if 1 ≤ y ∧ 1 ≤ m ∧ m ≤ 12 ∧ 1 ≤ d ∧ d ≤ daysInMonth y m then
        some (ordOfYmd y m d)
      else none
    | _, _, _ => none
  | _ => none

/-- The `"%H:%M"` part of `strptime`, returning minutes after midnight. -/
def parseTime (s : String) : Option Nat :=
  match splitCh ':' s.data with
  | [hs, ms] =>
    match parseUpTo2 hs, parseUpTo2 ms with
    | some h, some m => if h ≤ 23 ∧ m ≤ 59 then some (60 * h + m) else none
    | _, _ => none
  | _ => none

/-- `datetime.strftime("%H:%M")` for a minutes-after-midnight value. -/
def formatTime (t : Nat) : String := pad2 (t / 60) ++ ":" ++ pad2 (t % 60)

/-! ### Association lists standing for Python dicts -/

/-- `d[k] = v`: replace the value at the first occurrence of `k`, keeping its
position, or append `(k, v)` when `k` is absent — CPython dict assignment. -/
def alistSet {β : Type} (k : String) (v : β) : List (String × β) → List (String × β)
  | [] => [(k, v)]
  | (k', v') :: rest =>
    if k' = k then (k', v) :: rest else (k', v') :: alistSet k v rest

/-! ### Host agent: `medical_scheduling_tools.py` -/

/-- `OFFICE_HOURS['start_hour']`. -/
def startHour : Nat := 8
/-- `OFFICE_HOURS['end_hour']`. -/
def endHour : Nat := 17
/-- `OFFICE_HOURS['appointment_duration']` (hours per slot). -/
def appointmentDuration : Nat := 1

/-- One day of the schedule: ordered map, slot time `"HH:MM"` ↦ the string
`"available"` or the patient booking info. -/
abbrev DaySchedule := List (String × String)

/-- `MEDICAL_APPOINTMENT_SCHEDULE`: ordered map, `"YYYY-MM-DD"` ↦ day. -/
abbrev Calendar := List (String × DaySchedule)

/-- `[f"{hour:02d}:00" for hour in range(start_hour, end_hour)]`. -/
def availableTimeSlots : List String :=
  (List.range' startHour (endHour - startHour)).map (fun hour => pad2 hour ++ ":00")

/-- `initialize_medical_schedule`, with `date.today()` passed in as the
ordinal `today`.  Populates seven consecutive days, every slot `"available"`. -/
def initialize_medical_schedule (today : Nat) : Calendar :=
  (List.range 7).map (fun day_offset =>
    (formatDate (today + day_offset),
     availableTimeSlots.map (fun time_slot => (time_slot, "available"))))

/-- Result of `list_appointment_availabilities`.  `noSlots` is the early
success return for a date whose schedule entry is missing or empty (the code
tests dict truthiness); `schedule` is the full report. -/
inductive ListAvailResult where
  | error (message errorCode : String)
  | noSlots (message : String) (availableSlots : List String)
      (bookedAppointments : List (String × String)) (totalSlots : Nat)
  | schedule (message : String) (availableSlots : List String)
      (bookedAppointments : List (String × String))
      (totalSlots availableCount bookedCount : Nat)
  deriving DecidableEq

def ListAvailResult.status : ListAvailResult → String
  | .error _ _ => "error"
  | .noSlots _ _ _ _ => "success"
  | .schedule _ _ _ _ _ _ => "success"

/-- `list_appointment_availabilities(appointment_date)` with `date.today()`
passed as `today` and the global schedule as `cal`.  Reads only. -/
def list_appointment_availabilities (appointment_date : String) (today : Nat)
    (cal : Calendar) : ListAvailResult :=
  match parseDate appointment_date with
  | none =>
    .error "Invalid date format. Please provide date in YYYY-MM-DD format."
      "INVALID_DATE_FORMAT"
  | some parsed_date =>
    if parsed_date < today then
      .error ("Cannot check availability for past date: " ++ appointment_date)
        "PAST_DATE_NOT_ALLOWED"
    else
      match List.lookup appointment_date cal with
      | none =>
        .noSlots ("No appointment slots configured for " ++ appointment_date ++ ".") [] [] 0
      | some daily_appointment_schedule =>
        if daily_appointment_schedule.isEmpty then
          .noSlots ("No appointment slots configured for " ++ appointment_date ++ ".") [] [] 0
        else
          let available_time_slots :=
            (daily_appointment_schedule.filter (fun p => p.2 = "available")).map Prod.fst
          let booked_appointments :=
            daily_appointment_schedule.filter (fun p => ¬ p.2 = "available")
          .schedule ("Medical appointment schedule for " ++ appointment_date ++ ".")
            available_time_slots booked_appointments
            daily_appointment_schedule.length
            available_time_slots.length booked_appointments.length

/-- Result of `book_medical_appointment`. -/
inductive BookResult where
  | error (message errorCode : String)
  | slotConflict (message errorCode conflictingSlot existingPatient : String)
  | success (message appointmentId patientName appointmentType date
      startTime endTime : String) (durationHours : Nat) (bookedSlots : List String)
  deriving DecidableEq

def BookResult.status : BookResult → String
  | .error _ _ => "error"
  | .slotConflict _ _ _ _ => "error"
  | .success _ _ _ _ _ _ _ _ _ => "success"

/-- The body of the `while current_slot_time < appointment_end` loop, run on
explicit fuel so that the kernel can evaluate it; `e - s` steps always
suffice because each iteration advances by a positive number of minutes. -/
def requiredTimeSlotsAux : Nat → Nat → Nat → List String
  | 0, _, _ => []
  | fuel + 1, s, e =>
    if s < e then formatTime s :: requiredTimeSlotsAux fuel (s + 60 * appointmentDuration) e
    else []

/-- The `while current_slot_time < appointment_end` loop: slot keys stepping
one appointment duration at a time from the requested start time. -/
def requiredTimeSlots (s e : Nat) : List String := requiredTimeSlotsAux (e - s) s e

/-- The availability test of the check loop:
`daily_schedule.get(time_slot, "booked") != "available"`. -/
def slotTaken (daily_schedule : DaySchedule) (time_slot : String) : Bool :=
  ((List.lookup time_slot daily_schedule).getD "booked") ≠ "available"

/-- `f"{patient_name} ({appointment_type})"`. -/
def patientBookingInfo (patient_name appointment_type : String) : String :=
  patient_name ++ " (" ++ appointment_type ++ ")"

/-- `book_medical_appointment`, with the drawn `str(uuid.uuid4())` passed in
as `uuidStr` and the global schedule threaded explicitly: the second
component of the result is the schedule after the call.

The two `strptime` calls of the source parse `f"{date} {time}"` against
`"%Y-%m-%d %H:%M"`; both datetimes share the date, so the later
`appointment_start >= appointment_end` test compares the minute values. -/
def book_medical_appointment (appointment_date start_time end_time
    patient_name appointment_type uuidStr : String) (cal : Calendar) :
    BookResult × Calendar :=
  if nameMissing patient_name then
    (.error "Patient name is required to book an appointment."
      "MISSING_PATIENT_NAME", cal)
  else
    match parseDate appointment_date, parseTime start_time, parseTime end_time with
    | some _, some s, some e =>
      if s ≥ e then
        (.error "Appointment start time must be before end time."
          "INVALID_TIME_RANGE", cal)
      else if (List.lookup appointment_date cal).isNone then
        (.error ("No appointment slots available on " ++ appointment_date ++ ".")
          "DATE_NOT_AVAILABLE", cal)
      else
        let required_time_slots := requiredTimeSlots s e
        let daily_schedule := (List.lookup appointment_date cal).getD []
        match required_time_slots.find? (slotTaken daily_schedule) with
        | some time_slot =>
          let existing_patient := (List.lookup time_slot daily_schedule).getD "unknown patient"
          (.slotConflict
            ("Appointment slot " ++ time_slot ++ " on " ++ appointment_date ++
              " is already booked for " ++ existing_patient ++ ".")
            "SLOT_ALREADY_BOOKED" time_slot existing_patient, cal)
        | none =>
          let appointment_id := pyTake8 uuidStr
          let patient_booking_info := patientBookingInfo patient_name appointment_type
          let new_daily := required_time_slots.foldl
            (fun d t => alistSet t patient_booking_info d) daily_schedule
          (.success ("Medical appointment successfully booked for " ++ patient_name ++ ".")
            appointment_id patient_name appointment_type appointment_date
            start_time end_time required_time_slots.length required_time_slots,
           alistSet appointment_date new_daily cal)
    | _, _, _ =>
      (.error "Invalid date or time format. Please use YYYY-MM-DD for date and HH:MM for time."
        "INVALID_DATETIME_FORMAT", cal)

/-! ### Neurologist agent: `neurologist_agent_adk/agent.py` -/

/-- `NEUROLOGY_OFFICE_CONFIG['office_hours_start']`. -/
def officeHoursStart : Nat := 8
/-- `NEUROLOGY_OFFICE_CONFIG['office_hours_end']`. -/
def officeHoursEnd : Nat := 17
/-- `NEUROLOGY_OFFICE_CONFIG['slots_per_day']`. -/
def slotsPerDay : Nat := 6
/-- `NEUROLOGY_OFFICE_CONFIG['schedule_days_ahead']`. -/
def scheduleDaysAhead : Nat := 7

/-- `office_time_slots`: hourly slots during office hours. -/
def officeTimeSlots : List String :=
  (List.range' officeHoursStart (officeHoursEnd - officeHoursStart)).map
    (fun hour => pad2 hour ++ ":00")

/-- A read-only availability schedule: date string ↦ list of free times. -/
abbrev AvailSchedule := List (String × List String)

/-- `initialize_neurologist_appointment_schedule`, with `date.today()` passed
as `today` and each day's `random.sample(office_time_slots, 6)` draw passed
as `sample day_offset`; the code stores `sorted(...)` of the draw. -/
def initialize_neurologist_appointment_schedule (today : Nat)
    (sample : Nat → List String) : AvailSchedule :=
  (List.range scheduleDaysAhead).map (fun day_offset =>
    (formatDate (today + day_offset), sortStrs (sample day_offset)))

/-- One line of the neurologist availability report for the day `ord`. -/
def neuroDayEntry (sched : AvailSchedule) (ord : Nat) : String :=
  let date_string := formatDate ord
  let available_time_slots := (List.lookup date_string sched).getD []
  if available_time_slots.isEmpty then
    "📅 " ++ date_string ++ ": No neurologist appointment slots available."
  else
    "📅 " ++ date_string ++ ": Neurologist available at " ++
      String.intercalate ", " available_time_slots ++ " for consultations."

/-- The `availability_results` list built by the loop, one entry per day
offset `0 .. delta.days`. -/
def neuroEntries (sched : AvailSchedule) (startOrd endOrd : Nat) : List String :=
  (List.range (endOrd - startOrd + 1)).map (fun day_offset =>
    neuroDayEntry sched (startOrd + day_offset))

def neuroFormatError : String :=
  "Error: Invalid date format detected. Please use YYYY-MM-DD format for both start and end dates (e.g., 2024-03-15)."

def neuroRangeError : String :=
  "Error: Start date cannot be after end date. Please provide a valid date range."

def neuroPastError : String :=
  "Error: Cannot check availability for past dates. Please provide future dates."

/-- `check_neurologist_appointment_availability(start, end)`, with
`date.today()` passed as `today` and the global schedule as `sched`.
Reads only (the source mutates nothing). -/
def check_neurologist_appointment_availability (requested_start_date
    requested_end_date : String) (today : Nat) (sched : AvailSchedule) : String :=
  match parseDate requested_start_date, parseDate requested_end_date with
  | some start_date_obj, some end_date_obj =>
    if start_date_obj > end_date_obj then neuroRangeError
    else if end_date_obj < today then neuroPastError
    else
      let availability_results := neuroEntries sched start_date_obj end_date_obj
      if availability_results.isEmpty then "No availability data found."
      else String.intercalate "\n" availability_results
  | _, _ => neuroFormatError

/-! ### Pulmonologist agent: `pulmonologist_agent_crewai/agent.py` -/

/-- `generate_appointment_schedule`, with `date.today()` passed as `today`
and each day's `random.sample(possible_times, 6)` draw passed as
`sample i`; the code stores `sorted(...)` of the draw. -/
def generate_appointment_schedule (today : Nat)
    (sample : Nat → List String) : AvailSchedule :=
  (List.range 7).map (fun i =>
    (formatDate (today + i), sortStrs (sample i)))

/-- One line of the pulmonologist availability report for the day `ord`. -/
def pulmoDayEntry (sched : AvailSchedule) (ord : Nat) : String :=
  let date_str := formatDate ord
  let available_slots := (List.lookup date_str sched).getD []
  if available_slots.isEmpty then
    "No appointment slots available on " ++ date_str ++ "."
  else
    "On " ++ date_str ++ ", the pulmonologist has available appointment slots at: " ++
      String.intercalate ", " available_slots ++ "."

/-- The `results` list built by the loop, one entry per day offset. -/
def pulmoEntries (sched : AvailSchedule) (startOrd endOrd : Nat) : List String :=
  (List.range (endOrd - startOrd + 1)).map (fun i =>
    pulmoDayEntry sched (startOrd + i))

def pulmoFormatError : String :=
  "I couldn't understand the date. Please provide appointment availability request for a date like 'YYYY-MM-DD'."

def pulmoRangeError : String :=
  "Invalid date range. The start date cannot be after the end date."

/-- `dates_to_check[0]` of `_run`: first piece of the input split on
`"to"`, stripped. -/
def pulmoStartStr (date_range : String) : String :=
  String.mk (((splitOnTo date_range.data []).map pyStrip).headD [])

/-- `dates_to_check[-1]` of `_run`: last piece of the input split on
`"to"`, stripped. -/
def pulmoEndStr (date_range : String) : String :=
  String.mk (((splitOnTo date_range.data []).map pyStrip).getLastD [])

/-- `AppointmentAvailabilityTool._run(date_range)` with the global schedule
as `sched`.  The input is split on the substring `"to"` and each piece
stripped; the first piece is the start date, the last the end date.  There
is no past-date validation in this variant.  Reads only. -/
def appointmentAvailabilityToolRun (date_range : String)
    (sched : AvailSchedule) : String :=
  let start_date_str := pulmoStartStr date_range
  let end_date_str := pulmoEndStr date_range
  match parseDate start_date_str, parseDate end_date_str with
  | some startOrd, some endOrd =>
    if startOrd > endOrd then pulmoRangeError
    else String.intercalate "\n" (pulmoEntries sched startOrd endOrd)
  | _, _ => pulmoFormatError

/-- Observer: the value `MEDICAL_APPOINTMENT_SCHEDULE[d][t]`, when present. -/
def getSlot (cal : Calendar) (d t : String) : Option String :=
  match List.lookup d cal with
  | none => none
  | some ds => List.lookup t ds

/-! ### Concrete scenario data (the spec's 08:00-17:00 example week) -/

/-- Reference date of the worked example: 2024-07-01. -/
def exToday : Nat := ordOfYmd 2024 7 1

/-- Freshly initialized host calendar on the reference date. -/
def exCal : Calendar := initialize_medical_schedule exToday

/-- A drawn `str(uuid.uuid4())` value (36 characters). -/
def exUuid : String := "1f2e3d4c-5b6a-7980-abcd-ef0123456789"

/-- The calendar after booking 09:00-11:00 for Jane Doe on 2024-07-01. -/
def exCalBooked : Calendar :=
  (book_medical_appointment "2024-07-01" "09:00" "11:00" "Jane Doe" "consultation"
    exUuid exCal).2

/-- The 2024-07-01 day schedule inside `exCalBooked`. -/
def exBookedDay : DaySchedule :=
  [("08:00", "available"),
   ("09:00", "Jane Doe (consultation)"),
   ("10:00", "Jane Doe (consultation)"),
   ("11:00", "available"), ("12:00", "available"), ("13:00", "available"),
   ("14:00", "available"), ("15:00", "available"), ("16:00", "available")]

/-- A fixed six-element draw standing for `random.sample(..., 6)`. -/
def exSample : Nat → List String :=
  fun _ => ["10:00", "08:00", "16:00", "11:00", "09:00", "14:00"]

/-- A neurologist schedule generated on the reference date. -/
def exNeuroSched : AvailSchedule :=
  initialize_neurologist_appointment_schedule exToday exSample

/-- A pulmonologist schedule generated on the reference date. -/
def exPulmoSched : AvailSchedule := generate_appointment_schedule exToday exSample

/-! ### Lemmas about association lists -/

theorem lookup_alistSet_self {β : Type} (k : String) (v : β) (l : List (String × β)) :
    List.lookup k (alistSet k v l) = some v := by
  induction l with
  | nil => simp [alistSet, List.lookup]
  | cons p rest ih =>
    obtain ⟨k', v'⟩ := p
    by_cases hk : k' = k
    · subst hk
      simp [alistSet, List.lookup]
    · simp only [alistSet, if_neg hk, List.lookup]
      have : (k == k') = false := by
        simp [beq_iff_eq]
        exact fun h => hk h.symm
      rw [this]
      exact ih

theorem lookup_alistSet_ne {β : Type} {k k₀ : String} (v : β) (l : List (String × β))
    (h : k ≠ k₀) : List.lookup k (alistSet k₀ v l) = List.lookup k l := by
  induction l with
  | nil =>
    simp only [alistSet, List.lookup]
    have : (k == k₀) = false := by simp [beq_iff_eq]; exact h
    rw [this]
  | cons p rest ih =>
    obtain ⟨k', v'⟩ := p
    by_cases hk : k' = k₀
    · subst hk
      have : (k == k') = false := by simp [beq_iff_eq]; exact h
      simp [alistSet, List.lookup, this]
    · simp only [alistSet, if_neg hk, List.lookup]
      cases hkk : (k == k') with
      | true => rfl
      | false => exact ih

theorem lookup_foldl_alistSet_not_mem {s : String} (v : String) (ts : List String)
    (d0 : DaySchedule) (h : s ∉ ts) :
    List.lookup s (ts.foldl (fun d t => alistSet t v d) d0) = List.lookup s d0 := by
  induction ts generalizing d0 with
  | nil => rfl
  | cons t ts ih =>
    simp only [List.foldl_cons]
    have hne : s ≠ t := fun hEq => h (hEq ▸ List.mem_cons_self t ts)
    have hnm : s ∉ ts := fun hm => h (List.mem_cons_of_mem t hm)
    rw [ih (alistSet t v d0) hnm, lookup_alistSet_ne v d0 hne]

theorem lookup_foldl_alistSet_mem {s : String} (v : String) (ts : List String)
    (d0 : DaySchedule) (h : s ∈ ts) :
    List.lookup s (ts.foldl (fun d t => alistSet t v d) d0) = some v := by
  induction ts generalizing d0 with
  | nil => cases h
  | cons t ts ih =>
    simp only [List.foldl_cons]
    by_cases hm : s ∈ ts
    · exact ih (alistSet t v d0) hm
    · have : s = t := by
        rcases List.mem_cons.mp h with h1 | h2
        · exact h1
        · exact absurd h2 hm
      subst this
      rw [lookup_foldl_alistSet_not_mem v ts _ hm, lookup_alistSet_self]

theorem alist_value_unique {ds : List (String × String)} {t a b : String}
    (hnd : (ds.map Prod.fst).Nodup) (ha : (t, a) ∈ ds) (hb : (t, b) ∈ ds) : a = b := by
  induction ds with
  | nil => cases ha
  | cons p rest ih =>
    obtain ⟨k, v⟩ := p
    simp only [List.map_cons, List.nodup_cons] at hnd
    rcases List.mem_cons.mp ha with ha1 | ha2 <;> rcases List.mem_cons.mp hb with hb1 | hb2
    · injection ha1 with h1 h2
      injection hb1 with h3 h4
      exact h2.trans h4.symm
    · exfalso
      apply hnd.1
      injection ha1 with h1 h2
      exact h1 ▸ List.mem_map_of_mem Prod.fst hb2
    · exfalso
      apply hnd.1
      injection hb1 with h1 h2
      exact h1 ▸ List.mem_map_of_mem Prod.fst ha2
    · exact ih hnd.2 ha2 hb2

theorem lookup_map_const {α : Type} (r : List Nat) (f : Nat → String) (v : α)
    (k : String) (h : ∃ o ∈ r, f o = k) :
    List.lookup k (r.map (fun o => (f o, v))) = some v := by
  induction r with
  | nil => simp at h
  | cons o r ih =>
    simp only [List.map_cons, List.lookup]
    by_cases he : f o = k
    · have : (k == f o) = true := by simp [beq_iff_eq, he.symm]
      rw [this]
    · have : (k == f o) = false := by simp [beq_iff_eq]; exact fun hk => he hk.symm
      rw [this]
      apply ih
      rcases h with ⟨o', ho', hf⟩
      rcases List.mem_cons.mp ho' with h1 | h2
      · exact absurd (h1 ▸ hf) he
      · exact ⟨o', h2, hf⟩

theorem lookup_map_pair {α : Type} {r : List Nat} {f : Nat → String} {g : Nat → α}
    {k : String} {v : α}
    (h : List.lookup k (r.map (fun o => (f o, g o))) = some v) : ∃ o ∈ r, v = g o := by
  induction r with
  | nil => simp [List.lookup] at h
  | cons o r ih =>
    simp only [List.map_cons, List.lookup] at h
    cases hk : (k == f o) with
    | true =>
      rw [hk] at h
      exact ⟨o, List.mem_cons_self o r, (Option.some.injEq .. ▸ h).symm⟩
    | false =>
      rw [hk] at h
      rcases ih h with ⟨o', ho', hv⟩
      exact ⟨o', List.mem_cons_of_mem o ho', hv⟩

/-! ### Lemmas about the derived slot span -/

theorem step_eq : 60 * appointmentDuration = 60 := rfl

theorem requiredTimeSlotsAux_congr : ∀ (f₁ f₂ s e : Nat), e - s ≤ f₁ → e - s ≤ f₂ →
    requiredTimeSlotsAux f₁ s e = requiredTimeSlotsAux f₂ s e := by
  intro f₁
  induction f₁ with
  | zero =>
    intro f₂ s e h1 h2
    have hse : ¬ s < e := by omega
    cases f₂ with
    | zero => rfl
    | succ f => simp [requiredTimeSlotsAux, hse]
  | succ f ih =>
    intro f₂ s e h1 h2
    cases f₂ with
    | zero =>
      have hse : ¬ s < e := by omega
      simp [requiredTimeSlotsAux, hse]
    | succ f' =>
      simp only [requiredTimeSlotsAux]
      by_cases hse : s < e
      · simp only [if_pos hse, step_eq]
        have := ih f' (s + 60) e (by omega) (by omega)
        rw [this]
      · simp [if_neg hse]

theorem requiredTimeSlots_eq (s e : Nat) :
    requiredTimeSlots s e =
      if s < e then formatTime s :: requiredTimeSlots (s + 60 * appointmentDuration) e
      else [] := by
  by_cases hse : s < e
  · have h1 : e - s = (e - s - 1) + 1 := by omega
    simp only [requiredTimeSlots, if_pos hse]
    rw [h1]
    simp only [requiredTimeSlotsAux, if_pos hse]
    rw [step_eq]
    have := requiredTimeSlotsAux_congr (e - s - 1) (e - (s + 60)) (s + 60) e (by omega) (by omega)
    rw [this]
  · simp only [requiredTimeSlots, if_neg hse]
    have h0 : e - s = 0 := by omega
    rw [h0]
    rfl

theorem mem_requiredTimeSlotsAux : ∀ (f s e : Nat) (t : String), e - s ≤ f →
    (t ∈ requiredTimeSlotsAux f s e ↔ ∃ k, s + 60 * k < e ∧ t = formatTime (s + 60 * k)) := by
  intro f
  induction f with
  | zero =>
    intro s e t h
    simp only [requiredTimeSlotsAux, List.not_mem_nil, false_iff, not_exists, not_and]
    intro k hk
    omega
  | succ f ih =>
    intro s e t h
    simp only [requiredTimeSlotsAux]
    by_cases hse : s < e
    · simp only [if_pos hse, List.mem_cons, step_eq]
      rw [ih (s + 60) e t (by omega)]
      constructor
      · rintro (rfl | ⟨k, hk1, hk2⟩)
        · exact ⟨0, by omega, by rw [Nat.mul_zero, Nat.add_zero]⟩
        · refine ⟨k + 1, by omega, ?_⟩
          have : s + 60 * (k + 1) = s + 60 + 60 * k := by ring
          rw [this]
          exact hk2
      · rintro ⟨k, hk1, rfl⟩
        cases k with
        | zero => left; rw [Nat.mul_zero, Nat.add_zero]
        | succ k =>
          right
          refine ⟨k, by omega, ?_⟩
          have : s + 60 * (k + 1) = s + 60 + 60 * k := by ring
          rw [this]
    · simp only [if_neg hse, List.not_mem_nil, false_iff, not_exists, not_and]
      intro k hk
      omega

theorem mem_requiredTimeSlots (s e : Nat) (t : String) :
    t ∈ requiredTimeSlots s e ↔ ∃ k, s + 60 * k < e ∧ t = formatTime (s + 60 * k) :=
  mem_requiredTimeSlotsAux (e - s) s e t (Nat.le_refl _)

theorem self_mem_requiredTimeSlots {s e : Nat} (h : s < e) :
    formatTime s ∈ requiredTimeSlots s e := by
  rw [mem_requiredTimeSlots]
  exact ⟨0, by omega, by rw [Nat.mul_zero, Nat.add_zero]⟩

/-! ### The occupant string never collides with the `"available"` marker -/

theorem patientBookingInfo_ne_available (patient_name appointment_type : String) :
    patientBookingInfo patient_name appointment_type ≠ "available" := by
  intro h
  have hd : (patientBookingInfo patient_name appointment_type).data = "available".data :=
    congrArg String.data h
  simp only [patientBookingInfo, String.data_append] at hd
  have hl := congrArg List.getLast? hd
  rw [show patient_name.data ++ [' ', '('] ++ appointment_type.data ++ [')'] =
      (patient_name.data ++ [' ', '('] ++ appointment_type.data) ++ [')'] by
    simp [List.append_assoc]] at hl
  rw [List.getLast?_concat] at hl
  simp at hl

/-! ### The sort used by the read-only schedules -/

theorem charsLe_total : ∀ a b : List Char, charsLe a b = true ∨ charsLe b a = true := by
  intro a
  induction a with
  | nil => intro b; left; rfl
  | cons x xs ih =>
    intro b
    cases b with
    | nil => right; rfl
    | cons y ys =>
      simp only [charsLe]
      by_cases h1 : x.toNat < y.toNat
      · left; simp [h1]
      · by_cases h2 : y.toNat < x.toNat
        · right; simp [h2, h1]
        · simp only [if_neg h1, if_neg h2]
          exact ih ys

theorem charsLe_trans : ∀ a b c : List Char,
    charsLe a b = true → charsLe b c = true → charsLe a c = true := by
  intro a
  induction a with
  | nil => intro b c _ _; rfl
  | cons x xs ih =>
    intro b c hab hbc
    cases b with
    | nil => simp [charsLe] at hab
    | cons y ys =>
      cases c with
      | nil => simp [charsLe] at hbc
      | cons z zs =>
        simp only [charsLe] at hab hbc ⊢
        by_cases hxy : x.toNat < y.toNat <;> by_cases hyz : y.toNat < z.toNat
        · simp [show x.toNat < z.toNat by omega]
        · by_cases hzy : z.toNat < y.toNat
          · simp [hyz, hzy] at hbc
          · have hEq : y.toNat = z.toNat := by omega
            simp [show x.toNat < z.toNat by omega]
        · by_cases hyx : y.toNat < x.toNat
          · simp [hxy, hyx] at hab
          · have hEq : x.toNat = y.toNat := by omega
            simp [show x.toNat < z.toNat by omega]
        · by_cases hyx : y.toNat < x.toNat
          · simp [hxy, hyx] at hab
          · by_cases hzy : z.toNat < y.toNat
            · simp [hyz, hzy] at hbc
            · have h1 : ¬ x.toNat < z.toNat := by omega
              have h2 : ¬ z.toNat < x.toNat := by omega
              simp only [if_neg hxy, if_neg hyx] at hab
              simp only [if_neg hyz, if_neg hzy] at hbc
              simp only [if_neg h1, if_neg h2]
              exact ih ys zs hab hbc

theorem strLe_total (a b : String) : strLe a b = true ∨ strLe b a = true :=
  charsLe_total a.data b.data

theorem strLe_trans {a b c : String} (h1 : strLe a b = true) (h2 : strLe b c = true) :
    strLe a c = true :=
  charsLe_trans a.data b.data c.data h1 h2

theorem mem_insertStr {y x : String} : ∀ {l : List String},
    y ∈ insertStr x l → y = x ∨ y ∈ l := by
  intro l
  induction l with
  | nil =>
    intro h
    simp [insertStr] at h
    exact Or.inl h
  | cons z zs ih =>
    simp only [insertStr]
    by_cases h : strLe x z = true
    · simp only [if_pos h, List.mem_cons]
      rintro (rfl | h2)
      · exact Or.inl rfl
      · exact Or.inr h2
    · simp only [if_neg h, List.mem_cons]
      rintro (rfl | h2)
      · exact Or.inr (Or.inl rfl)
      · rcases ih h2 with h3 | h4
        · exact Or.inl h3
        · exact Or.inr (Or.inr h4)

theorem pairwise_insertStr (x : String) : ∀ (l : List String),
    List.Pairwise (fun a b => strLe a b = true) l →
    List.Pairwise (fun a b => strLe a b = true) (insertStr x l) := by
  intro l
  induction l with
  | nil => intro _; simp [insertStr]
  | cons y ys ih =>
    intro hp
    rcases List.pairwise_cons.mp hp with ⟨hy, hys⟩
    simp only [insertStr]
    by_cases h : strLe x y = true
    · simp only [if_pos h]
      refine List.pairwise_cons.mpr ⟨?_, hp⟩
      intro z hz
      rcases List.mem_cons.mp hz with rfl | hz2
      · exact h
      · exact strLe_trans h (hy z hz2)
    · simp only [if_neg h]
      refine List.pairwise_cons.mpr ⟨?_, ih hys⟩
      intro z hz
      rcases mem_insertStr hz with hzx | hz2
      · rw [hzx]
        rcases strLe_total x y with h1 | h2
        · exact absurd h1 h
        · exact h2
      · exact hy z hz2

theorem pairwise_sortStrs (l : List String) :
    List.Pairwise (fun a b => strLe a b = true) (sortStrs l) := by
  induction l with
  | nil => simp [sortStrs]
  | cons x xs ih => exact pairwise_insertStr x (sortStrs xs) ih

/-! ### Unfolding the branches of `book_medical_appointment` -/

theorem book_conflict_eq {cal : Calendar} {d st et nm ty uu : String} {D S E : Nat}
    {daily : DaySchedule} {t : String}
    (hnm : nameMissing nm = false) (hd : parseDate d = some D)
    (hs : parseTime st = some S) (he : parseTime et = some E) (hlt : S < E)
    (hdy : List.lookup d cal = some daily)
    (hfind : (requiredTimeSlots S E).find? (slotTaken daily) = some t) :
    book_medical_appointment d st et nm ty uu cal =
      (.slotConflict
        ("Appointment slot " ++ t ++ " on " ++ d ++ " is already booked for " ++
          ((List.lookup t daily).getD "unknown patient") ++ ".")
        "SLOT_ALREADY_BOOKED" t ((List.lookup t daily).getD "unknown patient"), cal) := by
  have hge : ¬ S ≥ E := by omega
  simp [book_medical_appointment, hnm, hd, hs, he, hge, hdy, hfind]

theorem book_success_eq {cal : Calendar} {d st et nm ty uu : String} {D S E : Nat}
    {daily : DaySchedule}
    (hnm : nameMissing nm = false) (hd : parseDate d = some D)
    (hs : parseTime st = some S) (he : parseTime et = some E) (hlt : S < E)
    (hdy : List.lookup d cal = some daily)
    (hfind : (requiredTimeSlots S E).find? (slotTaken daily) = none) :
    book_medical_appointment d st et nm ty uu cal =
      (.success ("Medical appointment successfully booked for " ++ nm ++ ".")
        (pyTake8 uu) nm ty d st et
        (requiredTimeSlots S E).length (requiredTimeSlots S E),
       alistSet d ((requiredTimeSlots S E).foldl
         (fun dd t => alistSet t (patientBookingInfo nm ty) dd) daily) cal) := by
  have hge : ¬ S ≥ E := by omega
  simp [book_medical_appointment, hnm, hd, hs, he, hge, hdy, hfind]

/-- In every branch, the returned calendar either is the input calendar
(failure) or is the committed update of a fully available span (success). -/
theorem book_cases (d st et nm ty uu : String) (cal : Calendar) :
    (book_medical_appointment d st et nm ty uu cal).2 = cal ∨
    ∃ S E daily,
      parseTime st = some S ∧ parseTime et = some E ∧ S < E ∧
      List.lookup d cal = some daily ∧
      (requiredTimeSlots S E).find? (slotTaken daily) = none ∧
      (book_medical_appointment d st et nm ty uu cal).2 =
        alistSet d ((requiredTimeSlots S E).foldl
          (fun dd t => alistSet t (patientBookingInfo nm ty) dd) daily) cal := by
  by_cases hnm : nameMissing nm
  · left; simp [book_medical_appointment, hnm]
  · rw [Bool.not_eq_true] at hnm
    cases hd : parseDate d with
    | none => left; simp [book_medical_appointment, hnm, hd]
    | some D =>
      cases hs : parseTime st with
      | none => left; simp [book_medical_appointment, hnm, hd, hs]
      | some S =>
        cases he : parseTime et with
        | none => left; simp [book_medical_appointment, hnm, hd, hs, he]
        | some E =>
          by_cases hge : S ≥ E
          · left; simp [book_medical_appointment, hnm, hd, hs, he, hge]
          · cases hdy : List.lookup d cal with
            | none => left; simp [book_medical_appointment, hnm, hd, hs, he, hge, hdy]
            | some daily =>
              cases hfind : (requiredTimeSlots S E).find? (slotTaken daily) with
              | some t =>
                left
                rw [book_conflict_eq hnm hd hs he (by omega) hdy hfind]
              | none =>
                right
                refine ⟨S, E, daily, rfl, rfl, by omega, rfl, hfind, ?_⟩
                rw [book_success_eq hnm hd hs he (by omega) hdy hfind]

/-- A committed slot value is never the `"available"` marker, so no booking
call ever moves a slot whose value differs from `"available"` back to it:
the stored value is preserved exactly. -/
theorem book_preserves_booked (d st et nm ty uu : String) (cal : Calendar)
    {d' t' v : String} (hv : getSlot cal d' t' = some v) (hna : v ≠ "available") :
    getSlot (book_medical_appointment d st et nm ty uu cal).2 d' t' = some v := by
  rcases book_cases d st et nm ty uu cal with h | ⟨S, E, daily, hs, he, hlt, hdy, hfind, h⟩
  · rw [h]; exact hv
  · rw [h]
    by_cases hdd : d' = d
    · subst hdd
      simp only [getSlot, hdy] at hv
      simp only [getSlot, lookup_alistSet_self]
      by_cases hmem : t' ∈ requiredTimeSlots S E
      · exfalso
        have := List.find?_eq_none.mp hfind t' hmem
        simp only [slotTaken, ne_eq, decide_not, Bool.not_eq_true', decide_eq_false_iff_not,
          Decidable.not_not] at this
        rw [hv] at this
        exact hna this
      · rw [lookup_foldl_alistSet_not_mem _ _ _ hmem]
        exact hv
    · simp only [getSlot, lookup_alistSet_ne _ _ hdd]
      exact hv

/-! ### The claims -/

/-- Claim C1: when a booking request passes the earlier validations but its
derived slot span contains a slot that is not `"available"` (including slots
whose key is absent from the day's schedule), the call fails with
`SLOT_ALREADY_BOOKED`, reporting the first conflicting slot in time-scan
order together with the stored occupant of that slot (`"unknown patient"`
for an absent key), and the calendar is returned completely unchanged. -/
theorem claim1_conflict_atomic_first_in_scan_order
    (cal : Calendar) (d st et nm ty uu : String) (D S E : Nat) (daily : DaySchedule)
    (hnm : nameMissing nm = false) (hd : parseDate d = some D)
    (hs : parseTime st = some S) (he : parseTime et = some E) (hlt : S < E)
    (hdy : List.lookup d cal = some daily)
    (hbad : ∃ u ∈ requiredTimeSlots S E, slotTaken daily u) :
    ∃ t pre post,
      requiredTimeSlots S E = pre ++ t :: post ∧
      slotTaken daily t = true ∧
      (∀ u ∈ pre, slotTaken daily u = false) ∧
      book_medical_appointment d st et nm ty uu cal =
        (.slotConflict
          ("Appointment slot " ++ t ++ " on " ++ d ++ " is already booked for " ++
            ((List.lookup t daily).getD "unknown patient") ++ ".")
          "SLOT_ALREADY_BOOKED" t ((List.lookup t daily).getD "unknown patient"), cal) := by
  have hsome : ((requiredTimeSlots S E).find? (slotTaken daily)).isSome := by
    rw [List.find?_isSome]
    exact hbad
  rcases Option.isSome_iff_exists.mp hsome with ⟨t, hfind⟩
  rcases List.find?_eq_some.mp hfind with ⟨hpt, pre, post, hsplit, hpre⟩
  refine ⟨t, pre, post, hsplit, hpt, ?_, ?_⟩
  · intro u hu
    have := hpre u hu
    simpa using this
  · exact book_conflict_eq hnm hd hs he hlt hdy hfind

/-- Witness for C1: on the example calendar with 09:00-11:00 already booked,
a 10:00-12:00 request conflicts. -/
theorem claim1_conflict_atomic_first_in_scan_order_witness :
    ∃ t pre post,
      requiredTimeSlots 600 720 = pre ++ t :: post ∧
      slotTaken exBookedDay t = true ∧
      (∀ u ∈ pre, slotTaken exBookedDay u = false) ∧
      book_medical_appointment "2024-07-01" "10:00" "12:00" "Bob" "checkup" exUuid exCalBooked =
        (.slotConflict
          ("Appointment slot " ++ t ++ " on " ++ "2024-07-01" ++ " is already booked for " ++
            ((List.lookup t exBookedDay).getD "unknown patient") ++ ".")
          "SLOT_ALREADY_BOOKED" t ((List.lookup t exBookedDay).getD "unknown patient"),
         exCalBooked) :=
  claim1_conflict_atomic_first_in_scan_order exCalBooked "2024-07-01" "10:00" "12:00"
    "Bob" "checkup" exUuid (ordOfYmd 2024 7 1) 600 720 exBookedDay
    (by decide) (by decide) (by decide) (by decide) (by decide) (by decide)
    ⟨"10:00", by decide, by decide⟩

/-- Claim C2: once a booking succeeds covering slot `s`, any later booking
request on the same date whose derived span covers `s` (and which passes the
earlier validations) fails with `SLOT_ALREADY_BOOKED` and leaves the calendar
exactly as it was; and no booking call ever moves a slot whose stored value
is not `"available"` back to `"available"` — the stored value is preserved. -/
theorem claim2_no_double_booking_no_unbooking :
    (∀ (cal : Calendar) (d st1 et1 nm1 ty1 uu1 st2 et2 nm2 ty2 uu2 s : String)
       (D S1 E1 S2 E2 : Nat) (daily : DaySchedule),
       nameMissing nm1 = false → parseDate d = some D →
       parseTime st1 = some S1 → parseTime et1 = some E1 → S1 < E1 →
       List.lookup d cal = some daily →
       (requiredTimeSlots S1 E1).find? (slotTaken daily) = none →
       s ∈ requiredTimeSlots S1 E1 →
       nameMissing nm2 = false →
       parseTime st2 = some S2 → parseTime et2 = some E2 → S2 < E2 →
       s ∈ requiredTimeSlots S2 E2 →
       ∃ t p m,
         book_medical_appointment d st2 et2 nm2 ty2 uu2
             (book_medical_appointment d st1 et1 nm1 ty1 uu1 cal).2 =
           (.slotConflict m "SLOT_ALREADY_BOOKED" t p,
            (book_medical_appointment d st1 et1 nm1 ty1 uu1 cal).2))
    ∧
    (∀ (d st et nm ty uu d' t' v : String) (cal : Calendar),
       getSlot cal d' t' = some v → v ≠ "available" →
       getSlot (book_medical_appointment d st et nm ty uu cal).2 d' t' = some v) := by
  constructor
  · intro cal d st1 et1 nm1 ty1 uu1 st2 et2 nm2 ty2 uu2 s D S1 E1 S2 E2 daily
      hnm1 hd hs1 he1 hlt1 hdy hfind1 hmem1 hnm2 hs2 he2 hlt2 hmem2
    have hbook1 := @book_success_eq cal d st1 et1 nm1 ty1 uu1 D S1 E1 daily
      hnm1 hd hs1 he1 hlt1 hdy hfind1
    set newDaily := (requiredTimeSlots S1 E1).foldl
      (fun dd t => alistSet t (patientBookingInfo nm1 ty1) dd) daily with hnewDaily
    have hcal2 : (book_medical_appointment d st1 et1 nm1 ty1 uu1 cal).2 =
        alistSet d newDaily cal := by rw [hbook1]
    have hlook2 : List.lookup d (alistSet d newDaily cal) = some newDaily :=
      lookup_alistSet_self d newDaily cal
    have hsv : List.lookup s newDaily = some (patientBookingInfo nm1 ty1) :=
      lookup_foldl_alistSet_mem _ _ _ hmem1
    have htaken : slotTaken newDaily s = true := by
      simp only [slotTaken, hsv, Option.getD_some]
      simp [patientBookingInfo_ne_available nm1 ty1]
    have hsome : ((requiredTimeSlots S2 E2).find? (slotTaken newDaily)).isSome := by
      rw [List.find?_isSome]
      exact ⟨s, hmem2, htaken⟩
    rcases Option.isSome_iff_exists.mp hsome with ⟨t, hfind2⟩
    refine ⟨t, (List.lookup t newDaily).getD "unknown patient",
      "Appointment slot " ++ t ++ " on " ++ d ++ " is already booked for " ++
        ((List.lookup t newDaily).getD "unknown patient") ++ ".", ?_⟩
    rw [hcal2]
    exact book_conflict_eq hnm2 hd hs2 he2 hlt2 hlook2 hfind2
  · intro d st et nm ty uu d' t' v cal hv hna
    exact book_preserves_booked d st et nm ty uu cal hv hna

/-- Witness for C2: Jane Doe books 09:00-11:00; Bob's 10:00-12:00 request
then fails without mutating state, and the 09:00 slot keeps its occupant
through an unrelated later booking call. -/
theorem claim2_no_double_booking_no_unbooking_witness :
    (∃ t p m,
      book_medical_appointment "2024-07-01" "10:00" "12:00" "Bob" "checkup" exUuid
          (book_medical_appointment "2024-07-01" "09:00" "11:00" "Jane Doe" "consultation"
            exUuid exCal).2 =
        (.slotConflict m "SLOT_ALREADY_BOOKED" t p,
         (book_medical_appointment "2024-07-01" "09:00" "11:00" "Jane Doe" "consultation"
           exUuid exCal).2))
    ∧
    getSlot (book_medical_appointment "2024-07-02" "08:00" "09:00" "Ann" "consultation"
        exUuid exCalBooked).2 "2024-07-01" "09:00" = some "Jane Doe (consultation)" :=
  ⟨claim2_no_double_booking_no_unbooking.1 exCal "2024-07-01" "09:00" "11:00" "Jane Doe"
      "consultation" exUuid "10:00" "12:00" "Bob" "checkup" exUuid "10:00"
      (ordOfYmd 2024 7 1) 540 660 600 720
      (availableTimeSlots.map (fun time_slot => (time_slot, "available")))
      (by decide) (by decide) (by decide) (by decide) (by decide) (by decide)
      (by decide) (by decide) (by decide) (by decide) (by decide) (by decide) (by decide),
   claim2_no_double_booking_no_unbooking.2 "2024-07-02" "08:00" "09:00" "Ann"
     "consultation" exUuid "2024-07-01" "09:00" "Jane Doe (consultation)" exCalBooked
     (by decide) (by decide)⟩

/-- Counterexample to C3: in the 08:00-17:00 scenario with 09:00-11:00
already booked, the 09:30-10:30 request does fail with
`SLOT_ALREADY_BOOKED`, but the reported conflicting slot is `09:30`
(an off-grid key that is absent from the day's schedule, reported with
occupant `"unknown patient"`), not the grid slot `09:00` the claim
predicts; the derived span is `["09:30"]`, which is not grid-aligned. -/
theorem claim3_grid_alignment_counterexample :
    book_medical_appointment "2024-07-01" "09:30" "10:30" "John Smith" "consultation"
        exUuid exCalBooked =
      (.slotConflict
        "Appointment slot 09:30 on 2024-07-01 is already booked for unknown patient."
        "SLOT_ALREADY_BOOKED" "09:30" "unknown patient", exCalBooked) ∧
    requiredTimeSlots 570 630 = ["09:30"] ∧
    ("09:30" : String) ≠ "09:00" := by
  refine ⟨by decide, by decide, by decide⟩

/-- Amended C3: the slot keys derived from `[startTime, endTime)` step one
hour at a time from the requested start time, so they carry the start time's
sub-grid offset instead of being grid-aligned; consequently the 09:30-10:30
request in the example scenario fails with `SLOT_ALREADY_BOOKED` reporting
conflicting slot `09:30` and occupant `"unknown patient"` (the off-grid key
is absent from the day's schedule), not slot `09:00`. -/
theorem claim3_slot_keys_follow_start_offset :
    (∀ (S E : Nat) (t : String),
      t ∈ requiredTimeSlots S E ↔ ∃ k, S + 60 * k < E ∧ t = formatTime (S + 60 * k)) ∧
    book_medical_appointment "2024-07-01" "09:30" "10:30" "John Smith" "consultation"
        exUuid exCalBooked =
      (.slotConflict
        "Appointment slot 09:30 on 2024-07-01 is already booked for unknown patient."
        "SLOT_ALREADY_BOOKED" "09:30" "unknown patient", exCalBooked) :=
  ⟨fun S E t => mem_requiredTimeSlots S E t, by decide⟩

/-- Claim C5: the five validations of `book_medical_appointment` run in a
fixed order, each failing with its own distinct error kind, and a later
check is never reached once an earlier one fails: missing patient name,
then date/time format, then time-range order, then date membership in the
calendar, then slot availability. -/
theorem claim5_validation_order (cal : Calendar) (d st et nm ty uu : String) :
    (nameMissing nm = true →
      book_medical_appointment d st et nm ty uu cal =
        (.error "Patient name is required to book an appointment."
          "MISSING_PATIENT_NAME", cal)) ∧
    (nameMissing nm = false →
      (parseDate d = none ∨ parseTime st = none ∨ parseTime et = none) →
      book_medical_appointment d st et nm ty uu cal =
        (.error "Invalid date or time format. Please use YYYY-MM-DD for date and HH:MM for time."
          "INVALID_DATETIME_FORMAT", cal)) ∧
    (∀ D S E : Nat, nameMissing nm = false → parseDate d = some D →
      parseTime st = some S → parseTime et = some E → E ≤ S →
      book_medical_appointment d st et nm ty uu cal =
        (.error "Appointment start time must be before end time."
          "INVALID_TIME_RANGE", cal)) ∧
    (∀ D S E : Nat, nameMissing nm = false → parseDate d = some D →
      parseTime st = some S → parseTime et = some E → S < E →
      List.lookup d cal = none →
      book_medical_appointment d st et nm ty uu cal =
        (.error ("No appointment slots available on " ++ d ++ ".")
          "DATE_NOT_AVAILABLE", cal)) ∧
    (∀ (D S E : Nat) (daily : DaySchedule), nameMissing nm = false →
      parseDate d = some D → parseTime st = some S → parseTime et = some E →
      S < E → List.lookup d cal = some daily →
      (∃ u ∈ requiredTimeSlots S E, slotTaken daily u) →
      ∃ t m p,
        book_medical_appointment d st et nm ty uu cal =
          (.slotConflict m "SLOT_ALREADY_BOOKED" t p, cal)) := by
  refine ⟨?_, ?_, ?_, ?_, ?_⟩
  · intro hnm
    simp [book_medical_appointment, hnm]
  · intro hnm hfail
    cases hd : parseDate d with
    | none =>
      cases hs : parseTime st <;> cases he : parseTime et <;>
        simp [book_medical_appointment, hnm, hd, hs, he]
    | some D =>
      cases hs : parseTime st with
      | none =>
        cases he : parseTime et <;>
          simp [book_medical_appointment, hnm, hd, hs, he]
      | some S =>
        cases he : parseTime et with
        | none => simp [book_medical_appointment, hnm, hd, hs, he]
        | some E =>
          rw [hd] at hfail
          rw [hs] at hfail
          rw [he] at hfail
          rcases hfail with h | h | h <;> cases h
  · intro D S E hnm hd hs he hle
    have hge : S ≥ E := hle
    simp [book_medical_appointment, hnm, hd, hs, he, hge]
  · intro D S E hnm hd hs he hlt hnone
    have hge : ¬ S ≥ E := by omega
    simp [book_medical_appointment, hnm, hd, hs, he, hge, hnone]
  · intro D S E daily hnm hd hs he hlt hdy hbad
    have hsome : ((requiredTimeSlots S E).find? (slotTaken daily)).isSome := by
      rw [List.find?_isSome]
      exact hbad
    rcases Option.isSome_iff_exists.mp hsome with ⟨t, hfind⟩
    exact ⟨t, _, _, book_conflict_eq hnm hd hs he hlt hdy hfind⟩

/-- Witness for C5: each of the five failure branches observed on concrete
inputs over the example calendar. -/
theorem claim5_validation_order_witness :
    book_medical_appointment "2024-07-01" "09:00" "10:00" " " "consultation" exUuid exCal =
      (.error "Patient name is required to book an appointment."
        "MISSING_PATIENT_NAME", exCal) ∧
    book_medical_appointment "2024/07/01" "09:00" "10:00" "Ann" "consultation" exUuid exCal =
      (.error "Invalid date or time format. Please use YYYY-MM-DD for date and HH:MM for time."
        "INVALID_DATETIME_FORMAT", exCal) ∧
    book_medical_appointment "2024-07-01" "10:00" "09:00" "Ann" "consultation" exUuid exCal =
      (.error "Appointment start time must be before end time."
        "INVALID_TIME_RANGE", exCal) ∧
    book_medical_appointment "2024-09-01" "09:00" "10:00" "Ann" "consultation" exUuid exCal =
      (.error ("No appointment slots available on " ++ "2024-09-01" ++ ".")
        "DATE_NOT_AVAILABLE", exCal) ∧
    (∃ t m p,
      book_medical_appointment "2024-07-01" "09:00" "10:00" "Bob" "checkup" exUuid exCalBooked =
        (.slotConflict m "SLOT_ALREADY_BOOKED" t p, exCalBooked)) :=
  ⟨(claim5_validation_order exCal "2024-07-01" "09:00" "10:00" " " "consultation" exUuid).1
      (by decide),
   (claim5_validation_order exCal "2024/07/01" "09:00" "10:00" "Ann" "consultation" exUuid).2.1
      (by decide) (Or.inl (by decide)),
   (claim5_validation_order exCal "2024-07-01" "10:00" "09:00" "Ann" "consultation"
      exUuid).2.2.1 (ordOfYmd 2024 7 1) 600 540 (by decide) (by decide) (by decide)
      (by decide) (by decide),
   (claim5_validation_order exCal "2024-09-01" "09:00" "10:00" "Ann" "consultation"
      exUuid).2.2.2.1 (ordOfYmd 2024 9 1) 540 600 (by decide) (by decide) (by decide)
      (by decide) (by decide) (by decide),
   (claim5_validation_order exCalBooked "2024-07-01" "09:00" "10:00" "Bob" "checkup"
      exUuid).2.2.2.2 (ordOfYmd 2024 7 1) 540 600 exBookedDay (by decide) (by decide)
      (by decide) (by decide) (by decide) (by decide) ⟨"09:00", by decide, by decide⟩⟩

/-- Claim C8: when every derived slot of a booking request is available the
call succeeds, returning the occupant, type, date, start and end times, an
8-character booking identifier cut from the drawn uuid string, a slot count
equal to the number of derived slot keys, and that list of slot keys. -/
theorem claim8_success_shape
    (cal : Calendar) (d st et nm ty uu : String) (D S E : Nat) (daily : DaySchedule)
    (hnm : nameMissing nm = false) (hd : parseDate d = some D)
    (hs : parseTime st = some S) (he : parseTime et = some E) (hlt : S < E)
    (hdy : List.lookup d cal = some daily)
    (hfree : ∀ u ∈ requiredTimeSlots S E, slotTaken daily u = false)
    (hlen : uu.length = 36) :
    (book_medical_appointment d st et nm ty uu cal).1 =
      .success ("Medical appointment successfully booked for " ++ nm ++ ".")
        (pyTake8 uu) nm ty d st et
        (requiredTimeSlots S E).length (requiredTimeSlots S E) ∧
    (pyTake8 uu).length = 8 := by
  have hfind : (requiredTimeSlots S E).find? (slotTaken daily) = none := by
    rw [List.find?_eq_none]
    intro u hu
    simp [hfree u hu]
  constructor
  · rw [book_success_eq hnm hd hs he hlt hdy hfind]
  · have : uu.data.length = 36 := hlen
    simp only [pyTake8, String.length, List.length_take]
    omega

/-- Witness for C8: booking 2024-07-01 09:00-11:00 for Jane Doe on the fresh
calendar succeeds with `durationSlots == 2` and
`bookedSlots == ["09:00", "10:00"]`. -/
theorem claim8_success_shape_witness :
    (book_medical_appointment "2024-07-01" "09:00" "11:00" "Jane Doe" "consultation"
        exUuid exCal).1 =
      .success ("Medical appointment successfully booked for " ++ "Jane Doe" ++ ".")
        (pyTake8 exUuid) "Jane Doe" "consultation" "2024-07-01" "09:00" "11:00"
        (requiredTimeSlots 540 660).length (requiredTimeSlots 540 660) ∧
    (pyTake8 exUuid).length = 8 ∧
    (requiredTimeSlots 540 660).length = 2 ∧
    requiredTimeSlots 540 660 = ["09:00", "10:00"] := by
  have h := claim8_success_shape exCal "2024-07-01" "09:00" "11:00" "Jane Doe"
    "consultation" exUuid (ordOfYmd 2024 7 1) 540 660
    (availableTimeSlots.map (fun time_slot => (time_slot, "available")))
    (by decide) (by decide) (by decide) (by decide) (by decide) (by decide)
    (by decide) (by decide)
  exact ⟨h.1, h.2, by decide, by decide⟩

/-- Claim C10: `book_medical_appointment` never consults the current clock —
the embedding takes no `today` parameter because the source function never
calls `date.today()` or compares against the current time — so any request
over an existing day schedule whose derived slots are all available succeeds
regardless of the current time of day; past dates are excluded only because
`initialize_medical_schedule` creates keys solely for the seven offsets from
the reference date. -/
theorem claim10_no_clock_comparison :
    (∀ (cal : Calendar) (d st et nm ty uu : String) (D S E : Nat) (daily : DaySchedule),
      nameMissing nm = false → parseDate d = some D →
      parseTime st = some S → parseTime et = some E → S < E →
      List.lookup d cal = some daily →
      (∀ u ∈ requiredTimeSlots S E, slotTaken daily u = false) →
      ((book_medical_appointment d st et nm ty uu cal).1).status = "success") ∧
    (∀ (T : Nat) (k : String), k ∈ (initialize_medical_schedule T).map Prod.fst →
      ∃ o, o < 7 ∧ k = formatDate (T + o)) := by
  constructor
  · intro cal d st et nm ty uu D S E daily hnm hd hs he hlt hdy hfree
    have hfind : (requiredTimeSlots S E).find? (slotTaken daily) = none := by
      rw [List.find?_eq_none]
      intro u hu
      simp [hfree u hu]
    rw [book_success_eq hnm hd hs he hlt hdy hfind]
    rfl
  · intro T k hk
    simp only [initialize_medical_schedule, List.map_map] at hk
    rcases List.mem_map.mp hk with ⟨o, ho, hko⟩
    exact ⟨o, List.mem_range.mp ho, hko.symm⟩

/-- Witness for C10: booking on the reference date itself at the earliest
office hour succeeds (no past-time rejection), and the key `"2024-07-01"` of
the example calendar is the reference date plus offset 0. -/
theorem claim10_no_clock_comparison_witness :
    ((book_medical_appointment "2024-07-01" "08:00" "09:00" "Early Bird" "consultation"
        exUuid exCal).1).status = "success" ∧
    (∃ o, o < 7 ∧ ("2024-07-01" : String) = formatDate (exToday + o)) :=
  ⟨claim10_no_clock_comparison.1 exCal "2024-07-01" "08:00" "09:00" "Early Bird"
      "consultation" exUuid (ordOfYmd 2024 7 1) 480 540
      (availableTimeSlots.map (fun time_slot => (time_slot, "available")))
      (by decide) (by decide) (by decide) (by decide) (by decide) (by decide) (by decide),
   claim10_no_clock_comparison.2 exToday "2024-07-01" (by decide)⟩

/-- Claim C4: immediately after initialization with reference date `T`
(configuration 8-17, seven days ahead), listing any of the seven populated
days reports nine slots, all nine available, none booked, and the slot keys
are exactly the on-the-hour times 08:00 through 16:00.  The hypothesis that
formatting then parsing the date string is the identity is a property of the
modelled `strftime`/`strptime` pair, discharged by computation at any
concrete date. -/
theorem claim4_initialization_completeness (T o : Nat) (ho : o < 7)
    (hrt : parseDate (formatDate (T + o)) = some (T + o)) :
    list_appointment_availabilities (formatDate (T + o)) T
        (initialize_medical_schedule T) =
      .schedule ("Medical appointment schedule for " ++ formatDate (T + o) ++ ".")
        ["08:00", "09:00", "10:00", "11:00", "12:00", "13:00", "14:00", "15:00", "16:00"]
        [] 9 9 0 := by
  have hlook : List.lookup (formatDate (T + o)) (initialize_medical_schedule T) =
      some (availableTimeSlots.map (fun time_slot => (time_slot, "available"))) := by
    simp only [initialize_medical_schedule]
    apply lookup_map_const
    exact ⟨o, List.mem_range.mpr ho, rfl⟩
  simp only [list_appointment_availabilities, hrt]
  rw [if_neg (show ¬ (T + o < T) by omega)]
  rw [hlook]
  rfl

/-- Witness for C4: the third day of the example calendar. -/
theorem claim4_initialization_completeness_witness :
    list_appointment_availabilities (formatDate (exToday + 2)) exToday
        (initialize_medical_schedule exToday) =
      .schedule ("Medical appointment schedule for " ++ formatDate (exToday + 2) ++ ".")
        ["08:00", "09:00", "10:00", "11:00", "12:00", "13:00", "14:00", "15:00", "16:00"]
        [] 9 9 0 :=
  claim4_initialization_completeness exToday 2 (by decide) (by decide)

/-- Claim C6: the availability listing rejects strings that do not parse as
calendar dates with `INVALID_DATE_FORMAT`, rejects parsed dates strictly
before today with `PAST_DATE_NOT_ALLOWED` (format is checked first, and a
date equal to today is not rejected — any query for today succeeds), and for
a valid non-past date with no schedule entry returns the successful empty
report with zero total slots and empty slot lists rather than an error. -/
theorem claim6_list_validation (s : String) (T : Nat) (cal : Calendar) :
    (parseDate s = none →
      list_appointment_availabilities s T cal =
        .error "Invalid date format. Please provide date in YYYY-MM-DD format."
          "INVALID_DATE_FORMAT") ∧
    (∀ D : Nat, parseDate s = some D → D < T →
      list_appointment_availabilities s T cal =
        .error ("Cannot check availability for past date: " ++ s)
          "PAST_DATE_NOT_ALLOWED") ∧
    (parseDate s = some T →
      (list_appointment_availabilities s T cal).status = "success") ∧
    (∀ D : Nat, parseDate s = some D → ¬ D < T → List.lookup s cal = none →
      list_appointment_availabilities s T cal =
        .noSlots ("No appointment slots configured for " ++ s ++ ".") [] [] 0) := by
  refine ⟨?_, ?_, ?_, ?_⟩
  · intro h
    simp [list_appointment_availabilities, h]
  · intro D hD hlt
    simp [list_appointment_availabilities, hD, hlt]
  · intro hT
    simp only [list_appointment_availabilities, hT]
    rw [if_neg (show ¬ (T < T) by omega)]
    cases List.lookup s cal with
    | none => rfl
    | some ds =>
      by_cases hds : ds.isEmpty <;> simp [hds, ListAvailResult.status]
  · intro D hD hge hnone
    simp [list_appointment_availabilities, hD, hge, hnone]

/-- Witness for C6: a malformed date, yesterday, today, and an unconfigured
future date against the example calendar. -/
theorem claim6_list_validation_witness :
    list_appointment_availabilities "07/01/2024" exToday exCal =
      .error "Invalid date format. Please provide date in YYYY-MM-DD format."
        "INVALID_DATE_FORMAT" ∧
    list_appointment_availabilities "2024-06-30" exToday exCal =
      .error ("Cannot check availability for past date: " ++ "2024-06-30")
        "PAST_DATE_NOT_ALLOWED" ∧
    (list_appointment_availabilities "2024-07-01" exToday exCal).status = "success" ∧
    list_appointment_availabilities "2024-08-15" exToday exCal =
      .noSlots ("No appointment slots configured for " ++ "2024-08-15" ++ ".") [] [] 0 :=
  ⟨(claim6_list_validation "07/01/2024" exToday exCal).1 (by decide),
   (claim6_list_validation "2024-06-30" exToday exCal).2.1 (ordOfYmd 2024 6 30)
     (by decide) (by decide),
   (claim6_list_validation "2024-07-01" exToday exCal).2.2.1 (by decide),
   (claim6_list_validation "2024-08-15" exToday exCal).2.2.2 (ordOfYmd 2024 8 15)
     (by decide) (by decide) (by decide)⟩

/-- Claim C9: the committed slot value `occupant ++ " (" ++ type ++ ")"` is
never the reserved marker `"available"`, so (on a day schedule with distinct
slot keys, as every real dict has) a slot holding a booking value is never
classified among the available slots of the listing's partition. -/
theorem claim9_occupant_never_collides_with_marker (nm ty : String)
    (_hnm : nameMissing nm = false) :
    patientBookingInfo nm ty ≠ "available" ∧
    ∀ (ds : DaySchedule) (t : String), (ds.map Prod.fst).Nodup →
      (t, patientBookingInfo nm ty) ∈ ds →
      t ∉ (ds.filter (fun p => p.2 = "available")).map Prod.fst := by
  refine ⟨patientBookingInfo_ne_available nm ty, ?_⟩
  intro ds t hnd hmem hcontra
  rcases List.mem_map.mp hcontra with ⟨⟨t', v'⟩, hin, hfst⟩
  have hpair := List.mem_filter.mp hin
  have hv' : v' = "available" := by
    have := hpair.2
    simpa using this
  have ht' : t' = t := hfst
  have : v' = patientBookingInfo nm ty :=
    alist_value_unique hnd (ht' ▸ hpair.1) hmem
  rw [hv'] at this
  exact patientBookingInfo_ne_available nm ty this.symm

/-- Witness for C9: Jane Doe's stored value differs from the marker, and the
booked 09:00 slot of the example day is not among its available slots. -/
theorem claim9_occupant_never_collides_with_marker_witness :
    patientBookingInfo "Jane Doe" "consultation" ≠ "available" ∧
    ("09:00" : String) ∉
      (exBookedDay.filter (fun p => p.2 = "available")).map Prod.fst :=
  ⟨(claim9_occupant_never_collides_with_marker "Jane Doe" "consultation" (by decide)).1,
   (claim9_occupant_never_collides_with_marker "Jane Doe" "consultation" (by decide)).2
     exBookedDay "09:00" (by decide) (by decide)⟩

/-- Counterexample to C7: the pulmonologist range checker performs no
past-date validation.  Its schedule was generated on 2024-07-01, yet a query
for the fully past range 2020-01-01 to 2020-01-02 returns the ordinary
per-day listing instead of failing with an `AllPastDates`-style error (the
function's only failure outputs are the format and order errors). -/
theorem claim7_range_counterexample :
    appointmentAvailabilityToolRun "2020-01-01 to 2020-01-02" exPulmoSched =
      "No appointment slots available on 2020-01-01.\nNo appointment slots available on 2020-01-02." ∧
    appointmentAvailabilityToolRun "2020-01-01 to 2020-01-02" exPulmoSched ≠
      pulmoFormatError ∧
    appointmentAvailabilityToolRun "2020-01-01 to 2020-01-02" exPulmoSched ≠
      pulmoRangeError :=
  ⟨by decide, by decide, by decide⟩

/-- Amended C7: both range checkers reject unparseable inputs with their
format error and reversed ranges with their order error, and an accepted
range yields exactly one per-day entry for each date from start to end
inclusive in ascending order, each listing the day's stored (sorted)
available times or stating that none are available, without mutating any
state; but only the neurologist variant rejects ranges ending strictly
before today (`AllPastDates`) — the pulmonologist variant has no past-date
check at all and accepts ranges that end before today. -/
theorem claim7_range_query_behavior :
    (∀ (s1 s2 : String) (T : Nat) (sched : AvailSchedule),
      (parseDate s1 = none ∨ parseDate s2 = none) →
      check_neurologist_appointment_availability s1 s2 T sched = neuroFormatError) ∧
    (∀ (s1 s2 : String) (T : Nat) (sched : AvailSchedule) (S E : Nat),
      parseDate s1 = some S → parseDate s2 = some E → E < S →
      check_neurologist_appointment_availability s1 s2 T sched = neuroRangeError) ∧
    (∀ (s1 s2 : String) (T : Nat) (sched : AvailSchedule) (S E : Nat),
      parseDate s1 = some S → parseDate s2 = some E → S ≤ E → E < T →
      check_neurologist_appointment_availability s1 s2 T sched = neuroPastError) ∧
    (∀ (s1 s2 : String) (T : Nat) (sched : AvailSchedule) (S E : Nat),
      parseDate s1 = some S → parseDate s2 = some E → S ≤ E → ¬ E < T →
      check_neurologist_appointment_availability s1 s2 T sched =
        String.intercalate "\n" (neuroEntries sched S E) ∧
      (neuroEntries sched S E).length = E - S + 1 ∧
      ∀ i : Nat, i < E - S + 1 →
        (neuroEntries sched S E)[i]? = some (neuroDayEntry sched (S + i))) ∧
    (∀ (T : Nat) (sample : Nat → List String) (k : String) (l : List String),
      List.lookup k (initialize_neurologist_appointment_schedule T sample) = some l →
      List.Pairwise (fun a b => strLe a b = true) l) ∧
    (∀ (dr : String) (sched : AvailSchedule),
      (parseDate (pulmoStartStr dr) = none ∨ parseDate (pulmoEndStr dr) = none) →
      appointmentAvailabilityToolRun dr sched = pulmoFormatError) ∧
    (∀ (dr : String) (sched : AvailSchedule) (S E : Nat),
      parseDate (pulmoStartStr dr) = some S → parseDate (pulmoEndStr dr) = some E →
      E < S → appointmentAvailabilityToolRun dr sched = pulmoRangeError) ∧
    (∀ (dr : String) (sched : AvailSchedule) (S E : Nat),
      parseDate (pulmoStartStr dr) = some S → parseDate (pulmoEndStr dr) = some E →
      S ≤ E →
      appointmentAvailabilityToolRun dr sched =
        String.intercalate "\n" (pulmoEntries sched S E) ∧
      (pulmoEntries sched S E).length = E - S + 1 ∧
      ∀ i : Nat, i < E - S + 1 →
        (pulmoEntries sched S E)[i]? = some (pulmoDayEntry sched (S + i))) ∧
    (∀ (T : Nat) (sample : Nat → List String) (k : String) (l : List String),
      List.lookup k (generate_appointment_schedule T sample) = some l →
      List.Pairwise (fun a b => strLe a b = true) l) := by
  refine ⟨?_, ?_, ?_, ?_, ?_, ?_, ?_, ?_, ?_⟩
  · intro s1 s2 T sched h
    rcases h with h | h
    · cases h2 : parseDate s2 <;>
        simp [check_neurologist_appointment_availability, h, h2]
    · cases h1 : parseDate s1 <;>
        simp [check_neurologist_appointment_availability, h, h1]
  · intro s1 s2 T sched S E h1 h2 hlt
    simp [check_neurologist_appointment_availability, h1, h2, hlt]
  · intro s1 s2 T sched S E h1 h2 hle hpast
    simp [check_neurologist_appointment_availability, h1, h2,
      show ¬ E < S by omega, hpast]
  · intro s1 s2 T sched S E h1 h2 hle hfut
    have hlen : (neuroEntries sched S E).length = E - S + 1 := by
      simp [neuroEntries]
    have hne : (neuroEntries sched S E).isEmpty = false := by
      rw [List.isEmpty_eq_false]
      intro hnil
      rw [hnil] at hlen
      simp at hlen
    refine ⟨?_, hlen, ?_⟩
    · simp [check_neurologist_appointment_availability, h1, h2,
        show ¬ E < S by omega, hfut, hne]
    · intro i hi
      simp only [neuroEntries, List.getElem?_map, List.getElem?_range hi]
      rfl
  · intro T sample k l hk
    simp only [initialize_neurologist_appointment_schedule] at hk
    rcases lookup_map_pair hk with ⟨o, _, rfl⟩
    exact pairwise_sortStrs (sample o)
  · intro dr sched h
    rcases h with h | h
    · cases h2 : parseDate (pulmoEndStr dr) <;>
        simp [appointmentAvailabilityToolRun, h, h2]
    · cases h1 : parseDate (pulmoStartStr dr) <;>
        simp [appointmentAvailabilityToolRun, h, h1]
  · intro dr sched S E h1 h2 hlt
    simp [appointmentAvailabilityToolRun, h1, h2, hlt]
  · intro dr sched S E h1 h2 hle
    refine ⟨?_, by simp [pulmoEntries], ?_⟩
    · simp [appointmentAvailabilityToolRun, h1, h2, show ¬ E < S by omega]
    · intro i hi
      simp only [pulmoEntries, List.getElem?_map, List.getElem?_range hi]
      rfl
  · intro T sample k l hk
    simp only [generate_appointment_schedule] at hk
    rcases lookup_map_pair hk with ⟨o, _, rfl⟩
    exact pairwise_sortStrs (sample o)

/-- Witness for C7: every branch of both range checkers observed on the
example schedules generated on 2024-07-01. -/
theorem claim7_range_query_behavior_witness :
    check_neurologist_appointment_availability "bad" "2024-07-02" exToday exNeuroSched =
      neuroFormatError ∧
    check_neurologist_appointment_availability "2024-07-03" "2024-07-02" exToday
      exNeuroSched = neuroRangeError ∧
    check_neurologist_appointment_availability "2024-06-01" "2024-06-30" exToday
      exNeuroSched = neuroPastError ∧
    check_neurologist_appointment_availability "2024-06-30" "2024-07-01" exToday
      exNeuroSched =
      String.intercalate "\n"
        (neuroEntries exNeuroSched (ordOfYmd 2024 6 30) (ordOfYmd 2024 7 1)) ∧
    List.Pairwise (fun a b => strLe a b = true)
      ["08:00", "09:00", "10:00", "11:00", "14:00", "16:00"] ∧
    appointmentAvailabilityToolRun "garbage" exPulmoSched = pulmoFormatError ∧
    appointmentAvailabilityToolRun "2024-07-03 to 2024-07-01" exPulmoSched =
      pulmoRangeError ∧
    appointmentAvailabilityToolRun "2024-06-30 to 2024-07-02" exPulmoSched =
      String.intercalate "\n"
        (pulmoEntries exPulmoSched (ordOfYmd 2024 6 30) (ordOfYmd 2024 7 2)) :=
  ⟨claim7_range_query_behavior.1 "bad" "2024-07-02" exToday exNeuroSched
     (Or.inl (by decide)),
   claim7_range_query_behavior.2.1 "2024-07-03" "2024-07-02" exToday exNeuroSched
     (ordOfYmd 2024 7 3) (ordOfYmd 2024 7 2) (by decide) (by decide) (by decide),
   claim7_range_query_behavior.2.2.1 "2024-06-01" "2024-06-30" exToday exNeuroSched
     (ordOfYmd 2024 6 1) (ordOfYmd 2024 6 30) (by decide) (by decide) (by decide)
     (by decide),
   (claim7_range_query_behavior.2.2.2.1 "2024-06-30" "2024-07-01" exToday exNeuroSched
     (ordOfYmd 2024 6 30) (ordOfYmd 2024 7 1) (by decide) (by decide) (by decide)
     (by decide)).1,
   claim7_range_query_behavior.2.2.2.2.1 exToday exSample "2024-07-01"
     ["08:00", "09:00", "10:00", "11:00", "14:00", "16:00"] (by decide),
   claim7_range_query_behavior.2.2.2.2.2.1 "garbage" exPulmoSched
     (Or.inl (by decide)),
   claim7_range_query_behavior.2.2.2.2.2.2.1 "2024-07-03 to 2024-07-01" exPulmoSched
     (ordOfYmd 2024 7 3) (ordOfYmd 2024 7 1) (by decide) (by decide) (by decide),
   (claim7_range_query_behavior.2.2.2.2.2.2.2.1 "2024-06-30 to 2024-07-02" exPulmoSched
     (ordOfYmd 2024 6 30) (ordOfYmd 2024 7 2) (by decide) (by decide) (by decide)).1⟩

end HealthEase
